import Mathlib

/-!
# Verification of the dav-mcp transport-and-lifecycle adapter

Shallow embedding of the dav-mcp server (src/server-http.js, src/server-stdio.js
and the TsdavClientManager) together with proofs about its authentication gate,
tool dispatch pipeline, DAV session initialization, and per-request lifecycle.
-/

namespace DavMcp

/-! ## JavaScript string/truthiness model -/

/-- JS truthiness of an optional string value (`undefined` and `""` are falsy). -/
def jsTruthy : Option String → Bool
  | none => false
  | some s => !(s == "")

/-- JS `a || b` on optional strings (first operand taken when truthy). -/
def jsOr (a b : Option String) : Option String :=
  if jsTruthy a then a else b

/-- JS `s.startsWith(pre)`. -/
def jsStartsWith (s pre : String) : Bool :=
  s.data.take pre.data.length == pre.data

/-- JS `s.substring(n)`. -/
def jsSubstringFrom (s : String) (n : Nat) : String :=
  ⟨s.data.drop n⟩

/-- UTF-8 encoding of a single code point, as `Buffer.from(s, 'utf8')` produces
for each character of `s` (Node's Buffer encodes strings as UTF-8 bytes). -/
def utf8Enc (n : Nat) : List Nat :=
  if n < 0x80 then [n]
  else if n < 0x800 then [0xC0 + n / 0x40, 0x80 + n % 0x40]
  else if n < 0x10000 then [0xE0 + n / 0x1000, 0x80 + n / 0x40 % 0x40, 0x80 + n % 0x40]
  else [0xF0 + n / 0x40000, 0x80 + n / 0x1000 % 0x40, 0x80 + n / 0x40 % 0x40, 0x80 + n % 0x40]

/-- The byte content of `Buffer.from(s)` for a JS string `s`: UTF-8 bytes. -/
def jsBytes (s : String) : List Nat :=
  s.data.flatMap (fun c => utf8Enc c.toNat)

/-- Decodes one UTF-8 code point from the front of a byte list, returning it
together with the remaining bytes; used to show the encoding is injective. -/
def utf8DecStep : List Nat → Option (Nat × List Nat)
  | [] => none
  | b0 :: bs =>
    if b0 < 0x80 then some (b0, bs)
    else if b0 < 0xC0 then none
    else if b0 < 0xE0 then
      match bs with
      | b1 :: bs1 =>
        if 0x80 ≤ b1 ∧ b1 < 0xC0 then
          some ((b0 - 0xC0) * 0x40 + (b1 - 0x80), bs1)
        else none
      | [] => none
    else if b0 < 0xF0 then
      match bs with
      | b1 :: b2 :: bs2 =>
        if (0x80 ≤ b1 ∧ b1 < 0xC0) ∧ (0x80 ≤ b2 ∧ b2 < 0xC0) then
          some ((b0 - 0xE0) * 0x1000 + (b1 - 0x80) * 0x40 + (b2 - 0x80), bs2)
        else none
      | _ => none
    else
      match bs with
      | b1 :: b2 :: b3 :: bs3 =>
        if (0x80 ≤ b1 ∧ b1 < 0xC0) ∧ (0x80 ≤ b2 ∧ b2 < 0xC0) ∧ (0x80 ≤ b3 ∧ b3 < 0xC0) then
          some ((b0 - 0xF0) * 0x40000 + (b1 - 0x80) * 0x1000
                 + (b2 - 0x80) * 0x40 + (b3 - 0x80), bs3)
        else none
      | _ => none

/-- Fuel-driven UTF-8 decoder loop over `utf8DecStep`. -/
def utf8DecFuel : Nat → List Nat → Option (List Nat)
  | _, [] => some []
  | 0, _ :: _ => none
  | fuel + 1, b :: bs =>
      match utf8DecStep (b :: bs) with
      | none => none
      | some (n, rest) => (utf8DecFuel fuel rest).map (fun r => n :: r)

/-- UTF-8 decoder, used to show the encoding is injective. -/
def utf8Dec (l : List Nat) : Option (List Nat) :=
  utf8DecFuel l.length l

/-! ## Constant-time comparison model

Modelled from the spec: `crypto.timingSafeEqual` is a Node platform primitive
(not part of this repository's source). Per its contract it compares two
byte buffers of equal length by accumulating a difference over every byte
position with no data-dependent early exit, and throws when the lengths differ.
`ctRun` is that loop, instrumented with a step counter so that running time can
be reasoned about: the second component of the result is the number of
byte-comparison steps executed. -/
def ctRun : List Nat → List Nat → Nat → Nat → Nat × Nat
  | [], _, acc, steps => (acc, steps)
  | _ :: _, [], acc, steps => (acc, steps)
  | x :: xs, y :: ys, acc, steps =>
      ctRun xs ys (acc + (if x = y then 0 else 1)) (steps + 1)

/-- Outcome of `crypto.timingSafeEqual`: `none` models the exception thrown on
buffers of unequal length; `some b` is the comparison verdict. -/
def timingSafeEqual (a b : List Nat) : Option Bool :=
  if a.length = b.length then some ((ctRun a b 0 0).1 == 0) else none

/-- Trace of the gate's token comparison
`tokenBuffer.length !== secretBuffer.length || !crypto.timingSafeEqual(...)`:
records whether the primitive was invoked (the `||` short-circuits on the
length check) and the comparison outcome (`none` = primitive threw). -/
structure CmpTrace where
  tseInvoked : Bool
  outcome : Option Bool
deriving DecidableEq

/-- The comparison step of `authenticateBearer` (src/server-http.js:108-118),
with the short-circuit structure of the source's `||` made explicit. -/
def gateCompare (tok sec : List Nat) : CmpTrace :=
  if tok.length ≠ sec.length then { tseInvoked := false, outcome := some false }
  else { tseInvoked := true, outcome := timingSafeEqual tok sec }

/-- Number of byte-comparison steps the gate's comparison performs: zero when
the length check short-circuits, otherwise the steps of the primitive's loop. -/
def gateCompareCost (tok sec : List Nat) : Nat :=
  if tok.length ≠ sec.length then 0 else (ctRun tok sec 0 0).2

/-! ## Authentication gate (src/server-http.js:83-121) -/

inductive AuthMsg
  | bearerRequired
  | invalidToken
deriving DecidableEq

inductive AuthResult
  | misconfigured
  | unauthorized (msg : AuthMsg)
  | proceed
deriving DecidableEq

/-- HTTP status of the response the middleware writes (`none` when it calls
`next()` instead of responding). -/
def authHttpStatus : AuthResult → Option Nat
  | .misconfigured => some 500
  | .unauthorized _ => some 401
  | .proceed => none

/-- JSON-RPC error code carried in the middleware's rejection body. -/
def authRpcCode : AuthResult → Option Int
  | .misconfigured => some (-32603)
  | .unauthorized _ => some (-32001)
  | .proceed => none

/-- `authenticateBearer` middleware (src/server-http.js:83-121):
misconfiguration check on `BEARER_TOKEN`, presence/shape check on the
`Authorization` header, then the buffer comparison of `gateCompare`. -/
def authenticateBearer (bearerTokenEnv authHeader : Option String) : AuthResult :=
  match bearerTokenEnv with
  | none => .misconfigured
  | some secret =>
    if secret == "" then .misconfigured
    else
      match authHeader with
      | none => .unauthorized .bearerRequired
      | some h =>
        if jsStartsWith h "Bearer " then
          match (gateCompare (jsBytes (jsSubstringFrom h 7)) (jsBytes secret)).outcome with
          | some true => .proceed
          | _ => .unauthorized .invalidToken
        else .unauthorized .bearerRequired

/-! ## Tool registry and dispatch pipeline
(src/server-http.js:189-249, src/server-stdio.js:130-186) -/

/-- Snapshot of a JS arguments object. -/
abbrev ToolArgs := List (String × String)

/-- A thrown JS error, as `error-handler`-tagged errors carry an optional
`code` field (`error.code = MCP_ERROR_CODES.METHOD_NOT_FOUND`). -/
structure JsError where
  code : Option Int
  message : String
deriving DecidableEq

/-- Observable events of the dispatch pipeline: registry lookup, tool-call
logger phases, handler invocation, and DAV session access (from inside a
handler). -/
inductive PipeEvent
  | registryLookup (name : String)
  | logStart (tool : String)
  | handlerInvoke (tool : String)
  | davAccess (accountType : String)
  | logSuccess (tool : String) (durationMs : Int)
  | logError (tool : String) (durationMs : Int)
deriving DecidableEq

/-- Result of running a tool handler: a value or a thrown error. -/
inductive HResult
  | ok (value : String)
  | thrown (e : JsError)
deriving DecidableEq

/-- A registered tool descriptor (src/tools registry entry): name, description,
input schema, and the async handler, modelled as a function from arguments to
the events it emits plus its settled result. -/
structure ToolDescriptor where
  name : String
  description : String
  inputSchema : String
  handler : ToolArgs → List PipeEvent × HResult

/-- Modelled from the spec: `error-handler.js` is not under src/; the spec
fixes a small closed taxonomy of protocol error codes including
method-not-found (the JSON-RPC method-not-found code). -/
def MCP_ERROR_CODES_METHOD_NOT_FOUND : Int := -32601

/-- Modelled from the spec: `error-handler.js` is not under src/; the spec's
catch-all internal-error code. -/
def MCP_ERROR_CODES_INTERNAL_ERROR : Int := -32603

/-- Protocol error payload returned to the caller on a handler failure. -/
structure ErrorEnvelope where
  code : Int
  message : String
  detail : Option String
deriving DecidableEq

/-- Modelled from the spec: `createToolErrorResponse` (error-handler.js, not
under src/) maps a handler failure to an ErrorEnvelope with the error's
taxonomy code (or the catch-all code) and message; diagnostic detail is
included only when the development flag is set. -/
def createToolErrorResponse (e : JsError) (dev : Bool) : ErrorEnvelope :=
  { code := e.code.getD MCP_ERROR_CODES_INTERNAL_ERROR
    message := e.message
    detail := if dev then some e.message else none }

/-- How the CallTool request handler settles: a returned value, a returned
error envelope (handler failure), or a thrown error (unknown tool). -/
inductive DispatchResult
  | returnedValue (value : String)
  | returnedEnvelope (env : ErrorEnvelope)
  | thrown (e : JsError)
deriving DecidableEq

/-- The CallToolRequestSchema handler (src/server-http.js:201-246,
src/server-stdio.js:142-183): defaults the arguments, looks the name up in the
registry, throws a METHOD_NOT_FOUND-coded error when absent; otherwise reads
`Date.now()` (reading 0 of `clock`), emits the start log, invokes the handler,
reads `Date.now()` again (reading 1) when the handler settles, and emits the
success or error log with the difference as duration. -/
def callToolHandler (tools : List ToolDescriptor) (toolName : String)
    (arguments : Option ToolArgs) (clock : Nat → Int) (dev : Bool) :
    List PipeEvent × DispatchResult :=
  let args := arguments.getD []
  match tools.find? (fun t => t.name == toolName) with
  | none =>
      ([.registryLookup toolName],
       .thrown { code := some MCP_ERROR_CODES_METHOD_NOT_FOUND
                 message := "Unknown tool: " ++ toolName })
  | some tool =>
      let startTime := clock 0
      let handlerRun := tool.handler args
      let duration := clock 1 - startTime
      match handlerRun.2 with
      | .ok value =>
          ([.registryLookup toolName, .logStart toolName, .handlerInvoke toolName]
             ++ handlerRun.1 ++ [.logSuccess toolName duration],
           .returnedValue value)
      | .thrown e =>
          ([.registryLookup toolName, .logStart toolName, .handlerInvoke toolName]
             ++ handlerRun.1 ++ [.logError toolName duration],
           .returnedEnvelope (createToolErrorResponse e dev))

/-- Immediate HTTP response written by the middleware on rejection. -/
structure HttpResponse where
  status : Nat
  rpcCode : Int
deriving DecidableEq

/-- Outcome of `POST /mcp` for a call-tool body: either the auth middleware's
rejection response (no dispatch), or the dispatch pipeline's trace and result. -/
structure PostMcpOutcome where
  rejection : Option HttpResponse
  events : List PipeEvent
  dispatch : Option DispatchResult

/-- `app.post('/mcp', authenticateBearer, ...)` (src/server-http.js:254-283)
for a call-tool request body: the gate runs first; on rejection the handler
chain stops (no registry lookup, no DAV access, no tool-call logging); on
`next()` the request is dispatched to the CallTool handler. -/
def handlePostMcp (bearerTokenEnv authHeader : Option String)
    (tools : List ToolDescriptor) (toolName : String) (arguments : Option ToolArgs)
    (clock : Nat → Int) (dev : Bool) : PostMcpOutcome :=
  match authenticateBearer bearerTokenEnv authHeader with
  | .misconfigured =>
      { rejection := some { status := 500, rpcCode := -32603 }, events := [], dispatch := none }
  | .unauthorized _ =>
      { rejection := some { status := 401, rpcCode := -32001 }, events := [], dispatch := none }
  | .proceed =>
      let run := callToolHandler tools toolName arguments clock dev
      { rejection := none, events := run.1, dispatch := some run.2 }

/-! ## Per-request server/transport lifecycle (src/server-http.js:254-283) -/

/-- How a `POST /mcp` request ends. -/
inductive ReqOutcome
  | success
  | handlerError
  | clientDisconnect
deriving DecidableEq

/-- Lifecycle events of the ephemeral server/transport pair of one request. -/
inductive LifeEvent
  | createTransport (id : Nat)
  | createServer (id : Nat)
  | connect (server transport : Nat)
  | handleRequest (server transport : Nat)
  | responseClose
  | closeTransport (id : Nat)
  | closeServer (id : Nat)
deriving DecidableEq

/-- Identity of the transport constructed for request `r` (fresh per request:
`new StreamableHTTPServerTransport(...)` inside the handler). -/
def transportId (r : Nat) : Nat := 2 * r

/-- Identity of the server constructed for request `r` (fresh per request:
`createMCPServer(requestId)` inside the handler). -/
def serverId (r : Nat) : Nat := 2 * r + 1

/-- Lifecycle of one `POST /mcp` request (src/server-http.js:254-283): create
the transport and server, register the close callback, connect and handle the
request; when the response stream closes — after a successful response, after
the error path's 500 response, or on client disconnect — the registered
callback closes the transport and the server. -/
def postMcpLifecycle (r : Nat) (o : ReqOutcome) : List LifeEvent :=
  [.createTransport (transportId r), .createServer (serverId r),
   .connect (serverId r) (transportId r)]
  ++ (match o with
      | .clientDisconnect => []
      | _ => [.handleRequest (serverId r) (transportId r)])
  ++ [.responseClose, .closeTransport (transportId r), .closeServer (serverId r)]

/-- The instance identities an event touches. -/
def LifeEvent.ids : LifeEvent → List Nat
  | .createTransport i => [i]
  | .createServer i => [i]
  | .connect a b => [a, b]
  | .handleRequest a b => [a, b]
  | .responseClose => []
  | .closeTransport i => [i]
  | .closeServer i => [i]

/-- All instance identities touched by a lifecycle trace. -/
def traceIds (t : List LifeEvent) : List Nat :=
  t.flatMap LifeEvent.ids

/-! ## list-tools handler (src/server-http.js:189-198, src/server-stdio.js:130-139) -/

/-- The projection of a tool descriptor returned by list-tools: exactly
name, description and inputSchema. -/
structure ToolSummary where
  name : String
  description : String
  inputSchema : String
deriving DecidableEq

/-- The ListToolsRequestSchema handler: maps the registry to its
{name, description, inputSchema} projection, in registry order. -/
def listToolsHandler (tools : List ToolDescriptor) : List ToolSummary :=
  tools.map (fun t => { name := t.name, description := t.description, inputSchema := t.inputSchema })

/-! ## DAV session provider (TsdavClientManager, tsdav-client.js) -/

/-- Constructor-argument snapshot of a `DAVClient`. -/
structure DAVClientModel where
  serverUrl : Option String
  authMethod : String
  accountType : String
deriving DecidableEq

/-- The manager's mutable fields: the two client handles (`null` initially). -/
structure ManagerState where
  calDavClient : Option DAVClientModel
  cardDavClient : Option DAVClientModel
deriving DecidableEq

/-- A network login attempt performed during initialization
(`client.login()` — the only network calls of the initialization path). -/
inductive InitStep
  | loginCalDav
  | loginCardDav
deriving DecidableEq

/-- A warning logged during initialization. -/
inductive InitWarning
  | cardDavLoginFailed (msg : String)
deriving DecidableEq

/-- How initialization fails: a configuration-validation error thrown before
any client is built, or a propagated login failure. -/
inductive InitError
  | configError (msg : String)
  | loginError (msg : String)
deriving DecidableEq

/-- Environment-determined outcome of a `client.login()` network call. -/
inductive LoginResult
  | ok
  | failed (msg : String)
deriving DecidableEq

/-- Full observable outcome of an initialization run. -/
structure InitResult where
  steps : List InitStep
  warnings : List InitWarning
  state : ManagerState
  error : Option InitError
deriving DecidableEq

/-- Relevant configuration fields passed to `tsdavManager.initialize`. -/
structure DavConfig where
  serverUrl : Option String
  cardDavServerUrl : Option String
  authMethod : String
  username : Option String
  password : Option String
  clientId : Option String
  clientSecret : Option String
  refreshToken : Option String
deriving DecidableEq

/-- The CalDAV `DAVClient` built by `_initializeBasicAuth`. -/
def basicCalClient (config : DavConfig) : DAVClientModel :=
  { serverUrl := config.serverUrl, authMethod := "Basic", accountType := "caldav" }

/-- The CardDAV `DAVClient` built by `_initializeBasicAuth`
(`config.cardDavServerUrl || config.serverUrl`). -/
def basicCardClient (config : DavConfig) : DAVClientModel :=
  { serverUrl := jsOr config.cardDavServerUrl config.serverUrl
    authMethod := "Basic", accountType := "carddav" }

/-- `TsdavClientManager._initializeBasicAuth` (tsdav-client.js): validates
username/password, assigns both clients, logs in to CalDAV then CardDAV; any
login failure propagates. `calLogin`/`cardLogin` are the outcomes the network
environment gives those calls. -/
def initializeBasicAuth (config : DavConfig) (calLogin cardLogin : LoginResult) : InitResult :=
  if !(jsTruthy config.username) || !(jsTruthy config.password) then
    { steps := [], warnings := [], state := { calDavClient := none, cardDavClient := none }
      error := some (.configError "Basic Auth requires username and password") }
  else
    let st : ManagerState :=
      { calDavClient := some (basicCalClient config)
        cardDavClient := some (basicCardClient config) }
    match calLogin with
    | .failed m =>
        { steps := [.loginCalDav], warnings := [], state := st, error := some (.loginError m) }
    | .ok =>
        match cardLogin with
        | .failed m =>
            { steps := [.loginCalDav, .loginCardDav], warnings := [], state := st
              error := some (.loginError m) }
        | .ok =>
            { steps := [.loginCalDav, .loginCardDav], warnings := [], state := st, error := none }

/-- The OAuth `DAVClient`s built by `_initializeOAuth`. -/
def oauthClient (url : Option String) (accountType : String) : DAVClientModel :=
  { serverUrl := url, authMethod := "Oauth", accountType := accountType }

/-- `TsdavClientManager._initializeOAuth` (tsdav-client.js): validates the
OAuth fields, assigns both clients, logs in to CalDAV (failure propagates),
then tries the CardDAV login inside try/catch — a failure there is logged as a
warning and initialization still succeeds. -/
def initializeOAuth (config : DavConfig) (calLogin cardLogin : LoginResult) : InitResult :=
  if !(jsTruthy config.username) then
    { steps := [], warnings := [], state := { calDavClient := none, cardDavClient := none }
      error := some (.configError "OAuth requires username (user email)") }
  else if !(jsTruthy config.clientId) || !(jsTruthy config.clientSecret)
      || !(jsTruthy config.refreshToken) then
    { steps := [], warnings := [], state := { calDavClient := none, cardDavClient := none }
      error := some (.configError "OAuth requires clientId, clientSecret, and refreshToken") }
  else
    let st : ManagerState :=
      { calDavClient := some (oauthClient config.serverUrl "caldav")
        cardDavClient := some (oauthClient (jsOr config.cardDavServerUrl config.serverUrl) "carddav") }
    match calLogin with
    | .failed m =>
        { steps := [.loginCalDav], warnings := [], state := st, error := some (.loginError m) }
    | .ok =>
        match cardLogin with
        | .failed m =>
            { steps := [.loginCalDav, .loginCardDav], warnings := [.cardDavLoginFailed m]
              state := st, error := none }
        | .ok =>
            { steps := [.loginCalDav, .loginCardDav], warnings := [], state := st, error := none }

/-- `TsdavClientManager.initialize` (tsdav-client.js): dispatches on the
configured auth method ('OAuth'/'Oauth' select the OAuth path). -/
def tsdavInitialize (config : DavConfig) (calLogin cardLogin : LoginResult) : InitResult :=
  if config.authMethod == "OAuth" || config.authMethod == "Oauth" then
    initializeOAuth config calLogin cardLogin
  else
    initializeBasicAuth config calLogin cardLogin

/-- The Basic-mode environment variables read by `initializeTsdav`. -/
structure BasicEnv where
  serverUrl : Option String
  username : Option String
  password : Option String
deriving DecidableEq

/-- `initializeTsdav` (src/server-http.js:126-168, Basic branch; likewise
src/server-stdio.js:71-111): requires CALDAV_SERVER_URL, CALDAV_USERNAME and
CALDAV_PASSWORD before calling `tsdavManager.initialize`. -/
def initializeTsdavBasic (env : BasicEnv) (calLogin cardLogin : LoginResult) : InitResult :=
  if !(jsTruthy env.serverUrl) || !(jsTruthy env.username) || !(jsTruthy env.password) then
    { steps := [], warnings := [], state := { calDavClient := none, cardDavClient := none }
      error := some (.configError
        "Basic Auth requires CALDAV_SERVER_URL, CALDAV_USERNAME, and CALDAV_PASSWORD") }
  else
    tsdavInitialize
      { serverUrl := env.serverUrl, cardDavServerUrl := none, authMethod := "Basic"
        username := env.username, password := env.password
        clientId := none, clientSecret := none, refreshToken := none }
      calLogin cardLogin

/-- A distinct "not initialized" error thrown by the accessors
(`CalDAVError` / `CardDAVError` from error-handler.js). -/
inductive DavAccessError
  | calDAVError (msg : String)
  | cardDAVError (msg : String)
deriving DecidableEq

/-- Result of a client accessor: the live handle or a thrown error. -/
inductive DavAccess
  | client (c : DAVClientModel)
  | thrown (e : DavAccessError)
deriving DecidableEq

/-- `TsdavClientManager.getCalDavClient` (tsdav-client.js): throws a
`CalDAVError` when the handle is null, otherwise returns it. -/
def getCalDavClient (st : ManagerState) : DavAccess :=
  match st.calDavClient with
  | none => .thrown (.calDAVError "CalDAV client not initialized. Call initialize() first.")
  | some c => .client c

/-- `TsdavClientManager.getCardDavClient` (tsdav-client.js): throws a
`CardDAVError` when the handle is null, otherwise returns it. -/
def getCardDavClient (st : ManagerState) : DavAccess :=
  match st.cardDavClient with
  | none => .thrown (.cardDAVError "CardDAV client not initialized. Call initialize() first.")
  | some c => .client c

/-! ## Concrete inputs used by witnesses and counterexamples -/

/-- A concrete tool whose handler succeeds immediately. -/
def demoTool : ToolDescriptor :=
  { name := "demo", description := "demo tool", inputSchema := "{}"
    handler := fun _ => ([.davAccess "caldav"], .ok "done") }

/-- A concrete wall-clock reading sequence that steps backwards between the
two `Date.now()` calls of one dispatch (system clock adjusted during the
call). -/
def backwardsClock : Nat → Int
  | 0 => 5
  | _ => 2

/-- A concrete wall-clock reading sequence that advances normally. -/
def forwardClock : Nat → Int
  | 0 => 100
  | _ => 103

/-- A concrete OAuth configuration with all required fields present. -/
def oauthDemoConfig : DavConfig :=
  { serverUrl := some "https://apidata.googleusercontent.com/caldav/v2/"
    cardDavServerUrl := none, authMethod := "OAuth"
    username := some "user@example.com", password := none
    clientId := some "client-id", clientSecret := some "client-secret"
    refreshToken := some "refresh-token" }

/-- A concrete Basic configuration with all required fields present. -/
def basicDemoConfig : DavConfig :=
  { serverUrl := some "https://dav.example.com"
    cardDavServerUrl := none, authMethod := "Basic"
    username := some "alice", password := some "pw"
    clientId := none, clientSecret := none, refreshToken := none }

/-- A concrete Basic environment that is missing the password. -/
def missingPasswordEnv : BasicEnv :=
  { serverUrl := some "https://dav.example.com", username := some "alice", password := none }

/-- A concrete Basic environment with all required variables set. -/
def validBasicEnv : BasicEnv :=
  { serverUrl := some "https://dav.example.com", username := some "alice"
    password := some "pw" }

/-! ## Helper lemmas -/

theorem char_toNat_lt (c : Char) : c.toNat < 0x110000 := by
  have h := c.valid
  simp only [UInt32.isValidChar, Nat.isValidChar] at h
  have hv : Char.toNat c = c.val.toNat := rfl
  omega

theorem char_toNat_injective {a b : Char} (h : a.toNat = b.toNat) : a = b := by
  apply Char.ext
  apply UInt32.ext
  exact h

theorem utf8Enc_length_pos (n : Nat) : 0 < (utf8Enc n).length := by
  rw [utf8Enc]
  split
  · simp
  · split
    · simp
    · split <;> simp

theorem utf8DecStep_enc (n : Nat) (hn : n < 0x110000) (rest : List Nat) :
    utf8DecStep (utf8Enc n ++ rest) = some (n, rest) := by
  by_cases h1 : n < 0x80
  · have henc : utf8Enc n = [n] := by simp [utf8Enc, h1]
    rw [henc, List.cons_append, List.nil_append]
    simp only [utf8DecStep, h1, if_pos]
  · by_cases h2 : n < 0x800
    · have henc : utf8Enc n = [0xC0 + n / 0x40, 0x80 + n % 0x40] := by
        simp [utf8Enc, h1, h2]
      have e1 : ¬ (0xC0 + n / 0x40 < 0x80) := by omega
      have e2 : ¬ (0xC0 + n / 0x40 < 0xC0) := by omega
      have e3 : 0xC0 + n / 0x40 < 0xE0 := by omega
      have e4 : 0x80 ≤ 0x80 + n % 0x40 ∧ 0x80 + n % 0x40 < 0xC0 := by omega
      have e5 : (0xC0 + n / 0x40 - 0xC0) * 0x40 + (0x80 + n % 0x40 - 0x80) = n := by omega
      rw [henc]
      simp only [List.cons_append, List.nil_append]
      simp only [utf8DecStep, e1, e2, e3, e4, e5, if_false, if_true, if_neg, if_pos, and_self]
    · by_cases h3 : n < 0x10000
      · have henc : utf8Enc n = [0xE0 + n / 0x1000, 0x80 + n / 0x40 % 0x40, 0x80 + n % 0x40] := by
          simp [utf8Enc, h1, h2, h3]
        have e1 : ¬ (0xE0 + n / 0x1000 < 0x80) := by omega
        have e2 : ¬ (0xE0 + n / 0x1000 < 0xC0) := by omega
        have e3 : ¬ (0xE0 + n / 0x1000 < 0xE0) := by omega
        have e4 : 0xE0 + n / 0x1000 < 0xF0 := by omega
        have e5 : (0x80 ≤ 0x80 + n / 0x40 % 0x40 ∧ 0x80 + n / 0x40 % 0x40 < 0xC0) ∧
            0x80 ≤ 0x80 + n % 0x40 ∧ 0x80 + n % 0x40 < 0xC0 := by omega
        have e6 : (0xE0 + n / 0x1000 - 0xE0) * 0x1000 + (0x80 + n / 0x40 % 0x40 - 0x80) * 0x40
            + (0x80 + n % 0x40 - 0x80) = n := by omega
        rw [henc]
        simp only [List.cons_append, List.nil_append]
        simp only [utf8DecStep, e1, e2, e3, e4, e5, e6, if_false, if_true, if_neg, if_pos, and_self]
      · have henc : utf8Enc n = [0xF0 + n / 0x40000, 0x80 + n / 0x1000 % 0x40,
            0x80 + n / 0x40 % 0x40, 0x80 + n % 0x40] := by
          simp [utf8Enc, h1, h2, h3]
        have e1 : ¬ (0xF0 + n / 0x40000 < 0x80) := by omega
        have e2 : ¬ (0xF0 + n / 0x40000 < 0xC0) := by omega
        have e3 : ¬ (0xF0 + n / 0x40000 < 0xE0) := by omega
        have e4 : ¬ (0xF0 + n / 0x40000 < 0xF0) := by omega
        have e5 : (0x80 ≤ 0x80 + n / 0x1000 % 0x40 ∧ 0x80 + n / 0x1000 % 0x40 < 0xC0) ∧
            (0x80 ≤ 0x80 + n / 0x40 % 0x40 ∧ 0x80 + n / 0x40 % 0x40 < 0xC0) ∧
            0x80 ≤ 0x80 + n % 0x40 ∧ 0x80 + n % 0x40 < 0xC0 := by omega
        have e6 : (0xF0 + n / 0x40000 - 0xF0) * 0x40000 + (0x80 + n / 0x1000 % 0x40 - 0x80) * 0x1000
            + (0x80 + n / 0x40 % 0x40 - 0x80) * 0x40 + (0x80 + n % 0x40 - 0x80) = n := by omega
        rw [henc]
        simp only [List.cons_append, List.nil_append]
        simp only [utf8DecStep, e1, e2, e3, e4, e5, e6, if_false, if_true, if_neg, if_pos, and_self]

theorem utf8DecFuel_flatMap (l : List Char) : ∀ fuel, l.length ≤ fuel →
    utf8DecFuel fuel (l.flatMap (fun c => utf8Enc c.toNat)) = some (l.map Char.toNat) := by
  induction l with
  | nil => intro fuel _; cases fuel <;> rfl
  | cons c l ih =>
      intro fuel hf
      cases fuel with
      | zero => simp at hf
      | succ f =>
          rw [List.flatMap_cons, List.map_cons]
          have hstep := utf8DecStep_enc c.toNat (char_toNat_lt c)
            (l.flatMap (fun c => utf8Enc c.toNat))
          cases henc : utf8Enc c.toNat with
          | nil =>
              have hpos := utf8Enc_length_pos c.toNat
              rw [henc] at hpos
              simp at hpos
          | cons b bs =>
              rw [henc] at hstep
              rw [henc, List.cons_append] at *
              rw [utf8DecFuel, hstep]
              simp [ih f (by simp at hf; omega)]

theorem length_le_flatMap_enc (l : List Char) :
    l.length ≤ (l.flatMap (fun c => utf8Enc c.toNat)).length := by
  induction l with
  | nil => simp
  | cons c l ih =>
      rw [List.flatMap_cons, List.length_append, List.length_cons]
      have := utf8Enc_length_pos c.toNat
      omega

theorem utf8Dec_flatMap (l : List Char) :
    utf8Dec (l.flatMap (fun c => utf8Enc c.toNat)) = some (l.map Char.toNat) :=
  utf8DecFuel_flatMap l _ (length_le_flatMap_enc l)

theorem jsBytes_injective {s t : String} (h : jsBytes s = jsBytes t) : s = t := by
  have hs := utf8Dec_flatMap s.data
  have ht := utf8Dec_flatMap t.data
  unfold jsBytes at h
  rw [h, ht] at hs
  have hmap : t.data.map Char.toNat = s.data.map Char.toNat := Option.some.inj hs
  have hdata : t.data = s.data :=
    List.map_injective_iff.mpr (fun _ _ hab => char_toNat_injective hab) hmap
  cases s
  cases t
  simp_all

theorem ctRun_steps (a : List Nat) : ∀ (b : List Nat) (acc steps : Nat),
    (ctRun a b acc steps).2 = steps + min a.length b.length := by
  induction a with
  | nil => intro b acc steps; simp [ctRun]
  | cons x xs ih =>
      intro b acc steps
      cases b with
      | nil => simp [ctRun]
      | cons y ys =>
          rw [ctRun, ih]
          simp
          omega

theorem ctRun_fst (a : List Nat) : ∀ (b : List Nat) (acc steps : Nat),
    a.length = b.length → ((ctRun a b acc steps).1 = 0 ↔ (acc = 0 ∧ a = b)) := by
  induction a with
  | nil =>
      intro b acc steps h
      cases b with
      | nil => simp [ctRun]
      | cons y ys => simp at h
  | cons x xs ih =>
      intro b acc steps h
      cases b with
      | nil => simp at h
      | cons y ys =>
          rw [ctRun, ih ys _ _ (by simpa using h)]
          by_cases hxy : x = y
          · simp [hxy]
          · simp only [if_neg hxy, List.cons.injEq]
            constructor
            · intro hc; omega
            · intro hc; exact absurd hc.2.1 hxy

theorem gateCompare_outcome (tok sec : List Nat) :
    (gateCompare tok sec).outcome = some (tok == sec) := by
  by_cases hlen : tok.length = sec.length
  · have hfst := ctRun_fst tok sec 0 0 hlen
    have hc : ¬ (tok.length ≠ sec.length) := by simp [hlen]
    simp only [gateCompare, timingSafeEqual, if_neg hc, if_pos hlen]
    by_cases heq : tok = sec
    · have h0 : (ctRun tok sec 0 0).1 = 0 := hfst.mpr ⟨rfl, heq⟩
      have b1 : ((ctRun tok sec 0 0).1 == 0) = true := by simp [h0]
      have b2 : (tok == sec) = true := by simp [heq]
      rw [b1, b2]
    · have h0 : (ctRun tok sec 0 0).1 ≠ 0 := fun hc0 => heq (hfst.mp hc0).2
      have b1 : ((ctRun tok sec 0 0).1 == 0) = false := by simp [h0]
      have b2 : (tok == sec) = false := by simp [heq]
      rw [b1, b2]
  · have hne : tok ≠ sec := fun hc => hlen (by rw [hc])
    have b2 : (tok == sec) = false := by simp [hne]
    simp [gateCompare, hlen, b2]

theorem authenticateBearer_eq_proceed_iff (secret h : String) (hsec : ¬ (secret == "") = true)
    (hpre : jsStartsWith h "Bearer " = true) :
    authenticateBearer (some secret) (some h) = .proceed ↔ jsSubstringFrom h 7 = secret := by
  rw [authenticateBearer]
  simp only [hsec, if_false, hpre, if_true, gateCompare_outcome]
  by_cases heq : jsBytes (jsSubstringFrom h 7) = jsBytes secret
  · have : jsSubstringFrom h 7 = secret := jsBytes_injective heq
    simp [heq, this]
  · have : jsSubstringFrom h 7 ≠ secret := fun hc => heq (by rw [hc])
    simp [heq, this]

/-! ## Claim theorems -/

/-- Claim C1: For every request to POST /mcp: with BEARER_TOKEN unconfigured
(unset or empty) the gate responds with the 500 (code -32603) misconfiguration error;
with the Authorization header absent or not carrying a bearer credential, or
with a presented credential that differs from the configured one, it responds
with the 401 (code -32001) unauthorized error; and in every rejection case the handler
chain is not continued: the dispatch pipeline emits no events (no tool registry
lookup, no DAV session access, no tool-call logging) and yields no dispatch
result. -/
theorem c1_auth_gate_rejections
    (env header : Option String) (tools : List ToolDescriptor) (toolName : String)
    (arguments : Option ToolArgs) (clock : Nat → Int) (dev : Bool) :
    (jsTruthy env = false →
       authenticateBearer env header = .misconfigured ∧
       authHttpStatus (authenticateBearer env header) = some 500 ∧
       authRpcCode (authenticateBearer env header) = some (-32603)) ∧
    (∀ secret, env = some secret → secret ≠ "" →
       ((header = none → authenticateBearer env header = .unauthorized .bearerRequired) ∧
        (∀ h, header = some h → jsStartsWith h "Bearer " = false →
           authenticateBearer env header = .unauthorized .bearerRequired) ∧
        (∀ h, header = some h → jsStartsWith h "Bearer " = true →
           jsSubstringFrom h 7 ≠ secret →
           authenticateBearer env header = .unauthorized .invalidToken))) ∧
    (∀ m, authHttpStatus (.unauthorized m) = some 401 ∧
       authRpcCode (.unauthorized m) = some (-32001)) ∧
    (authenticateBearer env header ≠ .proceed →
       (handlePostMcp env header tools toolName arguments clock dev).events = [] ∧
       (handlePostMcp env header tools toolName arguments clock dev).dispatch = none ∧
       (handlePostMcp env header tools toolName arguments clock dev).rejection ≠ none) := by
  refine ⟨?_, ?_, ?_, ?_⟩
  · intro hf
    cases env with
    | none => exact ⟨rfl, rfl, rfl⟩
    | some s =>
        have hs : (s == "") = true := by
          simp [jsTruthy] at hf
          simp [hf]
        refine ⟨?_, ?_, ?_⟩ <;> simp [authenticateBearer, hs, authHttpStatus, authRpcCode]
  · intro secret henv hne
    subst henv
    have hsecb : (secret == "") = false := by simp [hne]
    refine ⟨?_, ?_, ?_⟩
    · intro hh; subst hh; simp [authenticateBearer, hsecb]
    · intro h hh hsw; subst hh; simp [authenticateBearer, hsecb, hsw]
    · intro h hh hsw hneq
      subst hh
      have hbytes : jsBytes (jsSubstringFrom h 7) ≠ jsBytes secret :=
        fun hc => hneq (jsBytes_injective hc)
      have hb : (jsBytes (jsSubstringFrom h 7) == jsBytes secret) = false := by simp [hbytes]
      simp [authenticateBearer, hsecb, hsw, gateCompare_outcome, hb]
  · intro m; exact ⟨rfl, rfl⟩
  · intro hnp
    cases hab : authenticateBearer env header with
    | misconfigured => simp [handlePostMcp, hab]
    | unauthorized m => simp [handlePostMcp, hab]
    | proceed => exact absurd hab hnp

/-- Witness for C1: concrete mismatched credential, concrete unconfigured
secret, and the empty pipeline trace on rejection. -/
theorem c1_auth_gate_rejections_witness :
    authenticateBearer (some "s3cret") (some "Bearer wrong") = .unauthorized .invalidToken ∧
    authenticateBearer none (some "Bearer s3cret") = .misconfigured ∧
    (handlePostMcp (some "s3cret") (some "Bearer wrong") [demoTool] "demo" none
        forwardClock false).events = [] := by
  have h1 := c1_auth_gate_rejections (some "s3cret") (some "Bearer wrong") [demoTool] "demo"
    none forwardClock false
  have h2 := c1_auth_gate_rejections none (some "Bearer s3cret") [demoTool] "demo"
    none forwardClock false
  refine ⟨?_, ?_, ?_⟩
  · exact (h1.2.1 "s3cret" rfl (by decide)).2.2 "Bearer wrong" rfl (by decide) (by decide)
  · exact (h2.1 (by decide)).1
  · exact (h1.2.2.2 (by decide)).1

/-- Claim C2: The gate's token comparison is constant-time with respect to
credential content: for equal-length inputs the number of byte-comparison
steps equals the token length, so it is identical for any two equal-length
token/secret pairs of the same length regardless of which bytes differ; only
a difference in length short-circuits (zero byte-comparison steps, primitive
not invoked). -/
theorem c2_constant_time_comparison
    (tok sec tok' sec' : List Nat)
    (h1 : tok.length = sec.length) (h2 : tok'.length = sec'.length)
    (h3 : tok.length = tok'.length) :
    gateCompareCost tok sec = gateCompareCost tok' sec' ∧
    gateCompareCost tok sec = tok.length ∧
    (gateCompare tok sec).tseInvoked = true ∧
    (∀ a b : List Nat, a.length ≠ b.length →
       gateCompareCost a b = 0 ∧ (gateCompare a b).tseInvoked = false) := by
  have key : ∀ x y : List Nat, x.length = y.length → gateCompareCost x y = x.length := by
    intro x y hxy
    have hc : ¬ (x.length ≠ y.length) := by simp [hxy]
    simp [gateCompareCost, if_neg hc, ctRun_steps, hxy]
  refine ⟨?_, key tok sec h1, ?_, ?_⟩
  · rw [key tok sec h1, key tok' sec' h2, h3]
  · have hc : ¬ (tok.length ≠ sec.length) := by simp [h1]
    simp [gateCompare, if_neg hc]
  · intro a b hab
    exact ⟨by simp [gateCompareCost, hab], by simp [gateCompare, hab]⟩

/-- Witness for C2: two equal-length pairs with different contents have the
same comparison cost; a length mismatch costs zero byte comparisons. -/
theorem c2_constant_time_comparison_witness :
    gateCompareCost [1, 2] [3, 4] = gateCompareCost [9, 9] [9, 9] ∧
    gateCompareCost [1] [2, 3] = 0 := by
  have h := c2_constant_time_comparison [1, 2] [3, 4] [9, 9] [9, 9]
    (by decide) (by decide) (by decide)
  exact ⟨h.1, (h.2.2.2 [1] [2, 3] (by decide)).1⟩

/-- Claim C10: When the presented token's byte length differs from the
configured token's, the gate rejects via the length check alone: the
`crypto.timingSafeEqual` primitive — which would throw on unequal-length
buffers — is never invoked, the comparison outcome is a plain mismatch (no
exception), and the middleware responds 401 Invalid token, so the gate never
raises an uncaught fault on a wrong-length token. -/
theorem c10_length_mismatch_short_circuit
    (secret h : String) (hsec : secret ≠ "")
    (hsw : jsStartsWith h "Bearer " = true)
    (hlen : (jsBytes (jsSubstringFrom h 7)).length ≠ (jsBytes secret).length) :
    (gateCompare (jsBytes (jsSubstringFrom h 7)) (jsBytes secret)).tseInvoked = false ∧
    (gateCompare (jsBytes (jsSubstringFrom h 7)) (jsBytes secret)).outcome = some false ∧
    timingSafeEqual (jsBytes (jsSubstringFrom h 7)) (jsBytes secret) = none ∧
    authenticateBearer (some secret) (some h) = .unauthorized .invalidToken := by
  have hsecb : (secret == "") = false := by simp [hsec]
  refine ⟨?_, ?_, ?_, ?_⟩
  · simp [gateCompare, hlen]
  · simp [gateCompare, hlen]
  · simp [timingSafeEqual, hlen]
  · simp [authenticateBearer, hsecb, hsw, gateCompare, hlen]

/-- Witness for C10: a 7-byte token against a 6-byte secret. -/
theorem c10_length_mismatch_short_circuit_witness :
    (gateCompare (jsBytes (jsSubstringFrom "Bearer toolong" 7))
       (jsBytes "s3cret")).tseInvoked = false ∧
    authenticateBearer (some "s3cret") (some "Bearer toolong") = .unauthorized .invalidToken := by
  have h := c10_length_mismatch_short_circuit "s3cret" "Bearer toolong"
    (by decide) (by decide) (by decide)
  exact ⟨h.1, h.2.2.2⟩

/-- Claim C3: For every call-tool request whose name matches no registered tool,
the dispatch handler throws an error carrying the METHOD_NOT_FOUND taxonomy
code; its event trace is just the registry lookup — no handler invocation, no
start/success/error log phase, and no DAV session access occur. -/
theorem c3_unknown_tool_method_not_found
    (tools : List ToolDescriptor) (toolName : String) (arguments : Option ToolArgs)
    (clock : Nat → Int) (dev : Bool)
    (h : tools.find? (fun t => t.name == toolName) = none) :
    (callToolHandler tools toolName arguments clock dev).2 =
      .thrown { code := some MCP_ERROR_CODES_METHOD_NOT_FOUND
                message := "Unknown tool: " ++ toolName } ∧
    (callToolHandler tools toolName arguments clock dev).1 = [.registryLookup toolName] ∧
    (∀ e ∈ (callToolHandler tools toolName arguments clock dev).1,
       (∀ n, e ≠ .handlerInvoke n) ∧ (∀ n, e ≠ .logStart n) ∧
       (∀ n d, e ≠ .logSuccess n d) ∧ (∀ n d, e ≠ .logError n d) ∧
       (∀ a, e ≠ .davAccess a)) := by
  refine ⟨?_, ?_, ?_⟩
  · simp [callToolHandler, h]
  · simp [callToolHandler, h]
  · intro e he
    simp [callToolHandler, h] at he
    subst he
    simp

/-- Witness for C3: the name "nonexistent" against the demo registry. -/
theorem c3_unknown_tool_method_not_found_witness :
    (callToolHandler [demoTool] "nonexistent" none forwardClock false).2 =
      .thrown { code := some MCP_ERROR_CODES_METHOD_NOT_FOUND
                message := "Unknown tool: " ++ "nonexistent" } ∧
    (callToolHandler [demoTool] "nonexistent" none forwardClock false).1 =
      [.registryLookup "nonexistent"] := by
  have h := c3_unknown_tool_method_not_found [demoTool] "nonexistent" none forwardClock false
    rfl
  exact ⟨h.1, h.2.1⟩

/-- Claim C4: For every `POST /mcp` request, a fresh transport and a fresh server
are constructed for that request alone; whatever the outcome (success, handler
error, client disconnect), the trace ends with the response-stream close
followed immediately by the close of both that request's instances (so neither
outlives its request); every instance identity touched in a request's
lifecycle belongs to that request, and distinct requests touch disjoint
instances. -/
theorem c4_per_request_lifecycle (r r' : Nat) (o o' : ReqOutcome) :
    (LifeEvent.createTransport (transportId r) ∈ postMcpLifecycle r o ∧
     LifeEvent.createServer (serverId r) ∈ postMcpLifecycle r o) ∧
    (∀ i ∈ traceIds (postMcpLifecycle r o), i = transportId r ∨ i = serverId r) ∧
    (∃ pre, postMcpLifecycle r o =
        pre ++ [LifeEvent.responseClose, LifeEvent.closeTransport (transportId r),
                LifeEvent.closeServer (serverId r)] ∧
        LifeEvent.responseClose ∉ pre) ∧
    (r ≠ r' → ∀ i ∈ traceIds (postMcpLifecycle r' o'),
       i ≠ transportId r ∧ i ≠ serverId r) := by
  refine ⟨?_, ?_, ?_, ?_⟩
  · cases o <;> simp [postMcpLifecycle]
  · intro i hi
    cases o <;>
      simp [postMcpLifecycle, traceIds, LifeEvent.ids, transportId, serverId] at hi ⊢ <;>
      omega
  · cases o with
    | success =>
        exact ⟨[.createTransport (transportId r), .createServer (serverId r),
                .connect (serverId r) (transportId r),
                .handleRequest (serverId r) (transportId r)],
               by simp [postMcpLifecycle], by simp⟩
    | handlerError =>
        exact ⟨[.createTransport (transportId r), .createServer (serverId r),
                .connect (serverId r) (transportId r),
                .handleRequest (serverId r) (transportId r)],
               by simp [postMcpLifecycle], by simp⟩
    | clientDisconnect =>
        exact ⟨[.createTransport (transportId r), .createServer (serverId r),
                .connect (serverId r) (transportId r)],
               by simp [postMcpLifecycle], by simp⟩
  · intro hne i hi
    cases o' <;>
      simp [postMcpLifecycle, traceIds, LifeEvent.ids, transportId, serverId] at hi ⊢ <;>
      omega

/-- Witness for C4: requests 0 and 1 touch disjoint instances. -/
theorem c4_per_request_lifecycle_witness :
    (∃ pre, postMcpLifecycle 0 .success =
        pre ++ [LifeEvent.responseClose, LifeEvent.closeTransport (transportId 0),
                LifeEvent.closeServer (serverId 0)] ∧
        LifeEvent.responseClose ∉ pre) ∧
    (∀ i ∈ traceIds (postMcpLifecycle 1 .success),
       i ≠ transportId 0 ∧ i ≠ serverId 0) := by
  have h := c4_per_request_lifecycle 0 1 ReqOutcome.success ReqOutcome.success
  exact ⟨h.2.2.1, h.2.2.2 (by decide)⟩

/-- Claim C5: For every registry state, list-tools returns exactly the
registered tools, in registration order, each entry carrying exactly name,
description and inputSchema; replacing every handler arbitrarily leaves the
response unchanged, so the handler field is never exposed. (The handler is a
pure total function of the registry: no side effects, never fails.) -/
theorem c5_list_tools_projection (tools : List ToolDescriptor)
    (replace : ToolDescriptor → ToolArgs → List PipeEvent × HResult) :
    (listToolsHandler tools).length = tools.length ∧
    (listToolsHandler tools).map (fun s => s.name) = tools.map (fun t => t.name) ∧
    (listToolsHandler tools).map (fun s => s.description) =
      tools.map (fun t => t.description) ∧
    (listToolsHandler tools).map (fun s => s.inputSchema) =
      tools.map (fun t => t.inputSchema) ∧
    listToolsHandler (tools.map (fun t => { t with handler := replace t })) =
      listToolsHandler tools := by
  refine ⟨?_, ?_, ?_, ?_, ?_⟩ <;> simp [listToolsHandler]

/-- Claim C6: For every Basic-mode configuration missing a required field
(CALDAV_SERVER_URL, CALDAV_USERNAME or CALDAV_PASSWORD), DAV session
initialization fails with a configuration error before any network call: no
login step is performed and no client is assigned. -/
theorem c6_basic_missing_field_fails_before_network
    (env : BasicEnv) (cal card : LoginResult)
    (h : env.serverUrl = none ∨ env.username = none ∨ env.password = none) :
    (initializeTsdavBasic env cal card).steps = [] ∧
    (initializeTsdavBasic env cal card).error =
      some (.configError
        "Basic Auth requires CALDAV_SERVER_URL, CALDAV_USERNAME, and CALDAV_PASSWORD") ∧
    (initializeTsdavBasic env cal card).state =
      { calDavClient := none, cardDavClient := none } := by
  have hguard : (!(jsTruthy env.serverUrl) || !(jsTruthy env.username)
      || !(jsTruthy env.password)) = true := by
    rcases h with h | h | h <;> simp [h, jsTruthy]
  refine ⟨?_, ?_, ?_⟩ <;> simp [initializeTsdavBasic, hguard]

/-- Witness for C6: a Basic configuration missing the password. -/
theorem c6_basic_missing_field_fails_before_network_witness :
    (initializeTsdavBasic missingPasswordEnv .ok .ok).steps = [] ∧
    (initializeTsdavBasic missingPasswordEnv .ok .ok).error =
      some (.configError
        "Basic Auth requires CALDAV_SERVER_URL, CALDAV_USERNAME, and CALDAV_PASSWORD") := by
  have h := c6_basic_missing_field_fails_before_network missingPasswordEnv .ok .ok
    (Or.inr (Or.inr rfl))
  exact ⟨h.1, h.2.1⟩

/-- Claim C7: Initialization always attempts the CalDAV login (whatever the
login outcomes); in OAuth mode a CardDAV login failure is tolerated — a
warning is recorded and initialization still succeeds — whereas in Basic mode
a CardDAV login failure propagates and initialization fails. -/
theorem c7_caldav_always_attempted_carddav_tolerance
    (config : DavConfig) (cal card : LoginResult) (m : String) :
    (jsTruthy config.username = true → jsTruthy config.password = true →
       InitStep.loginCalDav ∈ (initializeBasicAuth config cal card).steps) ∧
    (jsTruthy config.username = true → jsTruthy config.clientId = true →
     jsTruthy config.clientSecret = true → jsTruthy config.refreshToken = true →
       InitStep.loginCalDav ∈ (initializeOAuth config cal card).steps) ∧
    (jsTruthy config.username = true → jsTruthy config.clientId = true →
     jsTruthy config.clientSecret = true → jsTruthy config.refreshToken = true →
       (initializeOAuth config .ok (.failed m)).error = none ∧
       (initializeOAuth config .ok (.failed m)).warnings = [.cardDavLoginFailed m]) ∧
    (jsTruthy config.username = true → jsTruthy config.password = true →
       (initializeBasicAuth config .ok (.failed m)).error = some (.loginError m)) := by
  refine ⟨?_, ?_, ?_, ?_⟩
  · intro hu hp
    have hguard : (!(jsTruthy config.username) || !(jsTruthy config.password)) = false := by
      simp [hu, hp]
    cases cal <;> cases card <;> simp [initializeBasicAuth, hguard]
  · intro hu hc hs hr
    have h1 : (!(jsTruthy config.username)) = false := by simp [hu]
    have h2 : (!(jsTruthy config.clientId) || !(jsTruthy config.clientSecret)
        || !(jsTruthy config.refreshToken)) = false := by simp [hc, hs, hr]
    cases cal <;> cases card <;> simp [initializeOAuth, h1, h2]
  · intro hu hc hs hr
    have h1 : (!(jsTruthy config.username)) = false := by simp [hu]
    have h2 : (!(jsTruthy config.clientId) || !(jsTruthy config.clientSecret)
        || !(jsTruthy config.refreshToken)) = false := by simp [hc, hs, hr]
    exact ⟨by simp [initializeOAuth, h1, h2], by simp [initializeOAuth, h1, h2]⟩
  · intro hu hp
    have hguard : (!(jsTruthy config.username) || !(jsTruthy config.password)) = false := by
      simp [hu, hp]
    simp [initializeBasicAuth, hguard]

/-- Witness for C7: concrete OAuth config with CardDAV down (succeeds with a
warning) and concrete Basic config with CardDAV down (fails). -/
theorem c7_caldav_always_attempted_carddav_tolerance_witness :
    InitStep.loginCalDav ∈ (initializeOAuth oauthDemoConfig .ok (.failed "card down")).steps ∧
    (initializeOAuth oauthDemoConfig .ok (.failed "card down")).error = none ∧
    (initializeOAuth oauthDemoConfig .ok (.failed "card down")).warnings =
      [.cardDavLoginFailed "card down"] ∧
    (initializeBasicAuth basicDemoConfig .ok (.failed "card down")).error =
      some (.loginError "card down") := by
  have h1 := c7_caldav_always_attempted_carddav_tolerance oauthDemoConfig .ok
    (.failed "card down") "card down"
  have h2 := c7_caldav_always_attempted_carddav_tolerance basicDemoConfig .ok
    (.failed "card down") "card down"
  refine ⟨?_, ?_, ?_, ?_⟩
  · exact h1.2.1 (by decide) (by decide) (by decide) (by decide)
  · exact (h1.2.2.1 (by decide) (by decide) (by decide) (by decide)).1
  · exact (h1.2.2.1 (by decide) (by decide) (by decide) (by decide)).2
  · exact h2.2.2.2 (by decide) (by decide)

/-- Claim C8: Each accessor throws its own distinct "not initialized" error
(CalDAVError resp. CardDAVError) when its handle is null and never returns a
null handle; when the handle is set, the accessor returns exactly that live
handle; and after an initialization run that succeeded, both handles are set. -/
theorem c8_accessor_contract (st : ManagerState) (env : BasicEnv) (cal card : LoginResult) :
    (st.calDavClient = none →
       getCalDavClient st =
         .thrown (.calDAVError "CalDAV client not initialized. Call initialize() first.")) ∧
    (st.cardDavClient = none →
       getCardDavClient st =
         .thrown (.cardDAVError "CardDAV client not initialized. Call initialize() first.")) ∧
    (∀ m m', DavAccessError.calDAVError m ≠ DavAccessError.cardDAVError m') ∧
    (∀ c, st.calDavClient = some c → getCalDavClient st = .client c) ∧
    (∀ c, st.cardDavClient = some c → getCardDavClient st = .client c) ∧
    ((initializeTsdavBasic env cal card).error = none →
       (initializeTsdavBasic env cal card).state.calDavClient.isSome = true ∧
       (initializeTsdavBasic env cal card).state.cardDavClient.isSome = true) := by
  refine ⟨?_, ?_, ?_, ?_, ?_, ?_⟩
  · intro h; simp [getCalDavClient, h]
  · intro h; simp [getCardDavClient, h]
  · intro m m'; simp
  · intro c hc; simp [getCalDavClient, hc]
  · intro c hc; simp [getCardDavClient, hc]
  · intro herr
    by_cases hsu : jsTruthy env.serverUrl = true
    · by_cases hun : jsTruthy env.username = true
      · by_cases hpw : jsTruthy env.password = true
        · have hguard : (!(jsTruthy env.serverUrl) || !(jsTruthy env.username)
              || !(jsTruthy env.password)) = false := by simp [hsu, hun, hpw]
          have hinner : (!(jsTruthy env.username) || !(jsTruthy env.password)) = false := by
            simp [hun, hpw]
          have hmethod : ((("Basic" : String) == "OAuth")
              || (("Basic" : String) == "Oauth")) = false := by decide
          cases cal with
          | failed m =>
              exfalso
              simp [initializeTsdavBasic, hguard, tsdavInitialize, hmethod,
                initializeBasicAuth, hinner] at herr
          | ok =>
              cases card with
              | failed m =>
                  exfalso
                  simp [initializeTsdavBasic, hguard, tsdavInitialize, hmethod,
                    initializeBasicAuth, hinner] at herr
              | ok =>
                  constructor <;>
                    simp [initializeTsdavBasic, hguard, tsdavInitialize, hmethod,
                      initializeBasicAuth, hinner]
        · exfalso
          have hguard : (!(jsTruthy env.serverUrl) || !(jsTruthy env.username)
              || !(jsTruthy env.password)) = true := by simp [hpw]
          simp [initializeTsdavBasic, hguard] at herr
      · exfalso
        have hguard : (!(jsTruthy env.serverUrl) || !(jsTruthy env.username)
            || !(jsTruthy env.password)) = true := by simp [hun]
        simp [initializeTsdavBasic, hguard] at herr
    · exfalso
      have hguard : (!(jsTruthy env.serverUrl) || !(jsTruthy env.username)
          || !(jsTruthy env.password)) = true := by simp [hsu]
      simp [initializeTsdavBasic, hguard] at herr

/-- Witness for C8: the empty manager state throws on access; after a
successful Basic initialization both handles are set. -/
theorem c8_accessor_contract_witness :
    getCalDavClient { calDavClient := none, cardDavClient := none } =
      .thrown (.calDAVError "CalDAV client not initialized. Call initialize() first.") ∧
    (initializeTsdavBasic validBasicEnv .ok .ok).state.calDavClient.isSome = true := by
  have h := c8_accessor_contract { calDavClient := none, cardDavClient := none }
    validBasicEnv .ok .ok
  exact ⟨h.1 rfl, (h.2.2.2.2.2 (by decide)).1⟩

/-- Claim C9, amended: For every tool call that reaches a registered handler,
the duration in the success or error log event is the difference of two
`Date.now()` wall-clock readings: one taken just before the start-log event
and handler invocation, one taken immediately after the handler settles. The
clock is the system wall clock, not a monotonic clock, so the reported
duration can be affected by wall-clock adjustments during the call (see the
counterexample for a negative duration). -/
theorem c9_duration_measured_with_wall_clock
    (tools : List ToolDescriptor) (toolName : String) (arguments : Option ToolArgs)
    (clock : Nat → Int) (dev : Bool) (tool : ToolDescriptor)
    (hfind : tools.find? (fun t => t.name == toolName) = some tool) :
    (∀ value, (tool.handler (arguments.getD [])).2 = .ok value →
       (callToolHandler tools toolName arguments clock dev).1 =
         [.registryLookup toolName, .logStart toolName, .handlerInvoke toolName]
           ++ (tool.handler (arguments.getD [])).1
           ++ [.logSuccess toolName (clock 1 - clock 0)]) ∧
    (∀ e, (tool.handler (arguments.getD [])).2 = .thrown e →
       (callToolHandler tools toolName arguments clock dev).1 =
         [.registryLookup toolName, .logStart toolName, .handlerInvoke toolName]
           ++ (tool.handler (arguments.getD [])).1
           ++ [.logError toolName (clock 1 - clock 0)]) := by
  constructor
  · intro value hok
    simp [callToolHandler, hfind, hok]
  · intro e herr
    simp [callToolHandler, hfind, herr]

/-- Witness for C9 (amended): the demo tool under a normal clock reports
duration 103 − 100 = 3. -/
theorem c9_duration_measured_with_wall_clock_witness :
    (callToolHandler [demoTool] "demo" none forwardClock false).1 =
      [.registryLookup "demo", .logStart "demo", .handlerInvoke "demo",
       .davAccess "caldav", .logSuccess "demo" 3] := by
  have h := (c9_duration_measured_with_wall_clock [demoTool] "demo" none forwardClock false
    demoTool rfl).1 "done" rfl
  simpa [demoTool, forwardClock] using h

/-- Claim C9 counterexample: The claim as stated — a monotonic clock, so
durationMs is never negative — is false on the code: the dispatch handler uses
`Date.now()` (the adjustable system wall clock), and with the wall clock
stepping from 5 to 2 between the two readings of one call, the success log
event reports durationMs = −3 < 0. -/
theorem c9_counterexample_negative_duration :
    PipeEvent.logSuccess "demo" (-3) ∈
      (callToolHandler [demoTool] "demo" none backwardsClock false).1 ∧
    (-3 : Int) < 0 := by
  constructor
  · simp [callToolHandler, demoTool, backwardsClock]
  · decide

end DavMcp
